import Mathlib

/-!
Shallow embedding of the peer-to-peer network actor of the repository.

The repository's scripts patch `p2p/src/network.rs`: they install a gossip
message dispatch (`new_handling` in `update_message_handling.py`), a command
handler and run loop (`new_run_impl` in `update_network.py`), and a
construction change (`update_network_new.py`).  The Rust bodies carried by
those patches are translated here: the gossip dispatch becomes
`dispatchMessage`/`new_handling`, the command handler becomes
`handle_command`, and the select loop becomes `loopIter`/`runLoop`.

The wire codec (`Message::to_bytes`/`Message::from_bytes`) lives in a file
the patches only call into; it is modelled from the specification (§3, §4.1):
a tagged union of eight variants with a deterministic encoding and a decoder
that rejects malformed payloads with a typed error.  Domain values (blocks,
transactions, hashes, peer identities) are opaque to this layer and are
modelled as naturals; wire bytes are modelled as lists of naturals.
-/

namespace BoundlessP2P

/-- Blocks are opaque domain values to this layer. -/
abbrev Block := Nat

/-- Transactions are opaque domain values to this layer. -/
abbrev Transaction := Nat

/-- Block hashes are opaque domain values to this layer. -/
abbrev Hash := Nat

/-- Peer identities (libp2p `PeerId`), opaque to this layer. -/
abbrev PeerId := Nat

/-- Modelled from the spec: the wire-protocol `Message` tagged union with its
eight variants `NewBlock`, `NewTransaction`, `Status{height, best_block_hash}`,
`GetBlocks{start_height, count}`, `Blocks{blocks}`, `GetStatus`, `Ping{nonce}`,
`Pong{nonce}` (spec §3); its definition (`p2p/src/message.rs`) is not among the
patch scripts. -/
inductive Message where
  | NewBlock (block : Block)
  | NewTransaction (transaction : Transaction)
  | Status (height : Nat) (best_block_hash : Hash)
  | GetBlocks (start_height : Nat) (count : Nat)
  | Blocks (blocks : List Block)
  | GetStatus
  | Ping (nonce : Nat)
  | Pong (nonce : Nat)
deriving DecidableEq

/-- Modelled from the spec: structural decode failure (spec §4.1, §7
`DecodeError`). -/
inductive DecodeError where
  | malformed
deriving DecidableEq

/-- Modelled from the spec: deterministic encoding of a `Message` (spec §4.1
"encode(Message) -> bytes, never fails for well-formed values").  A tag byte
selects the variant; fixed-arity fields follow; the `Blocks` payload is
length-prefixed. -/
def to_bytes : Message → List Nat
  | .NewBlock b => [0, b]
  | .NewTransaction t => [1, t]
  | .Status h bh => [2, h, bh]
  | .GetBlocks s c => [3, s, c]
  | .Blocks bs => 4 :: bs.length :: bs
  | .GetStatus => [5]
  | .Ping n => [6, n]
  | .Pong n => [7, n]

/-- Modelled from the spec: `decode(bytes) -> Message | DecodeError` (spec
§4.1); truncated, malformed or unknown-tag payloads yield a structural error,
never a partial value. -/
def from_bytes : List Nat → Except DecodeError Message
  | [0, b] => .ok (.NewBlock b)
  | [1, t] => .ok (.NewTransaction t)
  | [2, h, bh] => .ok (.Status h bh)
  | [3, s, c] => .ok (.GetBlocks s c)
  | 4 :: n :: rest => if rest.length = n then .ok (.Blocks rest) else .error .malformed
  | [5] => .ok .GetStatus
  | [6, n] => .ok (.Ping n)
  | [7, n] => .ok (.Pong n)
  | _ => .error .malformed

/-- Log lines emitted by the actor, one constructor per logging site of the
patched `network.rs` bodies. -/
inductive Log where
  | infoReceived
  | infoGetStatus
  | infoPing
  | infoPong
  | warnDecodeFailed
  | infoBroadcastedBlock
  | warnBroadcastBlockFailed
  | warnBroadcastTransactionFailed
  | warnSendStatusFailed
  | warnRequestBlocksFailed
deriving DecidableEq

/-- Whether a log line is at warn level. -/
def isWarnLog : Log → Bool
  | .warnDecodeFailed => true
  | .warnBroadcastBlockFailed => true
  | .warnBroadcastTransactionFailed => true
  | .warnSendStatusFailed => true
  | .warnRequestBlocksFailed => true
  | _ => false

/-- `NetworkEvent` variants sent on the event channel, as emitted by the
patched gossip dispatch (`update_message_handling.py`). -/
inductive NetworkEvent where
  | BlockReceived (peer_id : PeerId) (block : Block)
  | TransactionReceived (peer_id : PeerId) (transaction : Transaction)
  | StatusReceived (peer_id : PeerId) (height : Nat) (best_hash : Hash)
  | BlocksRequested (peer_id : PeerId) (start_height : Nat) (count : Nat)
deriving DecidableEq

/-- `NetworkCommand` variants dequeued by the actor
(`update_network.py`, `handle_command`). -/
inductive NetworkCommand where
  | BroadcastBlock (block : Block)
  | BroadcastTransaction (transaction : Transaction)
  | SendStatus (peer_id : PeerId) (height : Nat) (best_hash : Hash)
  | RequestBlocks (peer_id : PeerId) (start_height : Nat) (count : Nat)
deriving DecidableEq

/-- The two fixed gossipsub topics (`self.blocks_topic`,
`self.transactions_topic`); topic identity is immutable for the process
lifetime. -/
inductive Topic where
  | blocks
  | transactions
deriving DecidableEq

/-- Observable outcome of handling one inbound gossip payload: the
`NetworkEvent`s sent on the event channel (in send order), the publishes
attempted on the swarm, and the log lines.  The gossip arm of the source
never publishes, so `publishes` is `[]` in every branch. -/
structure GossipResult where
  events : List NetworkEvent
  publishes : List (Topic × List Nat)
  logs : List Log
deriving DecidableEq

/-- Translation of the inner `match msg` of the patched gossipsub arm
(`update_message_handling.py`, `new_handling`): `NewBlock`, `NewTransaction`,
`Status`, `GetBlocks` each send one event; `Blocks` loops over its blocks
sending one `BlockReceived` per block in order; `GetStatus`, `Ping`, `Pong`
only log.  The `info!("Received …")` line precedes the dispatch in every
decoded case. -/
def dispatchMessage (peer_id : PeerId) : Message → GossipResult
  | .NewBlock block =>
    { events := [.BlockReceived peer_id block], publishes := [], logs := [.infoReceived] }
  | .NewTransaction transaction =>
    { events := [.TransactionReceived peer_id transaction], publishes := [],
      logs := [.infoReceived] }
  | .Status height best_block_hash =>
    { events := [.StatusReceived peer_id height best_block_hash], publishes := [],
      logs := [.infoReceived] }
  | .GetBlocks start_height count =>
    { events := [.BlocksRequested peer_id start_height count], publishes := [],
      logs := [.infoReceived] }
  | .Blocks blocks =>
    { events := blocks.map (fun block => .BlockReceived peer_id block), publishes := [],
      logs := [.infoReceived] }
  | .GetStatus =>
    { events := [], publishes := [], logs := [.infoReceived, .infoGetStatus] }
  | .Ping _ =>
    { events := [], publishes := [], logs := [.infoReceived, .infoPing] }
  | .Pong _ =>
    { events := [], publishes := [], logs := [.infoReceived, .infoPong] }

/-- Translation of the whole patched gossipsub message arm: decode the payload
with the codec; on success dispatch by variant, on failure warn and drop
(`Err(e) => warn!("Failed to deserialize message …")`). -/
def new_handling (peer_id : PeerId) (data : List Nat) : GossipResult :=
  match from_bytes data with
  | .ok msg => dispatchMessage peer_id msg
  | .error _ => { events := [], publishes := [], logs := [.warnDecodeFailed] }

/-- Sequential processing of a stream of inbound gossip payloads, each handled
to completion by the loop before the next: the concatenation of the events of
each payload. -/
def handleSeq : List (PeerId × List Nat) → List NetworkEvent
  | [] => []
  | (p, d) :: rest => (new_handling p d).events ++ handleSeq rest

/-- Actor-owned state visible to the command handler.  The source
`handle_command` takes `&mut self` but reads only the swarm and the fixed
topics, never `self.event_tx`; whether an event subscriber is attached is kept
here so that independence from it can be stated. -/
structure ActorState where
  subscriberAttached : Bool
deriving DecidableEq

/-- Observable outcome of handling one dequeued command: the publishes
attempted on the swarm (topic and bytes, in attempt order) and the log lines.
The source handler sends nothing on the event channel and returns nothing to
the caller. -/
structure CmdResult where
  publishes : List (Topic × List Nat)
  logs : List Log
deriving DecidableEq

/-- Translation of `handle_command` (`update_network.py`, `new_run_impl`).
`enc` stands for `Message::to_bytes` (external to the patch, fallible in the
source: each arm guards with `if let Ok(data) = message.to_bytes()` and does
nothing otherwise); `pubOk` is the outcome of the single
`gossipsub.publish` call of the taken arm.  `BroadcastBlock` publishes on the
"blocks" topic and logs info on success, warn on failure;
`BroadcastTransaction` publishes on the "transactions" topic and warns on
failure; `SendStatus` and `RequestBlocks` build `Message::Status` and
`Message::GetBlocks` from the command's fields (ignoring `peer_id`) and
publish on the "blocks" topic, warning on failure. -/
def handle_command (enc : Message → Except Unit (List Nat)) (pubOk : Bool)
    (self : ActorState) : NetworkCommand → CmdResult
  | .BroadcastBlock block =>
    match enc (.NewBlock block) with
    | .ok data =>
      if pubOk then
        { publishes := [(.blocks, data)], logs := [.infoBroadcastedBlock] }
      else
        { publishes := [(.blocks, data)], logs := [.warnBroadcastBlockFailed] }
    | .error _ => { publishes := [], logs := [] }
  | .BroadcastTransaction tx =>
    match enc (.NewTransaction tx) with
    | .ok data =>
      if pubOk then
        { publishes := [(.transactions, data)], logs := [] }
      else
        { publishes := [(.transactions, data)], logs := [.warnBroadcastTransactionFailed] }
    | .error _ => { publishes := [], logs := [] }
  | .SendStatus _ height best_hash =>
    match enc (.Status height best_hash) with
    | .ok data =>
      if pubOk then
        { publishes := [(.blocks, data)], logs := [] }
      else
        { publishes := [(.blocks, data)], logs := [.warnSendStatusFailed] }
    | .error _ => { publishes := [], logs := [] }
  | .RequestBlocks _ start_height count =>
    match enc (.GetBlocks start_height count) with
    | .ok data =>
      if pubOk then
        { publishes := [(.blocks, data)], logs := [] }
      else
        { publishes := [(.blocks, data)], logs := [.warnRequestBlocksFailed] }
    | .error _ => { publishes := [], logs := [] }

/-- The spec-modelled codec's encoder as the `enc` argument of
`handle_command`: total, per spec §4.1 encoding never fails for well-formed
values. -/
def to_bytesE (m : Message) : Except Unit (List Nat) := .ok (to_bytes m)

/-- The `Message` each `handle_command` arm constructs from its command. -/
def commandMessage : NetworkCommand → Message
  | .BroadcastBlock block => .NewBlock block
  | .BroadcastTransaction tx => .NewTransaction tx
  | .SendStatus _ height best_hash => .Status height best_hash
  | .RequestBlocks _ start_height count => .GetBlocks start_height count

/-- State of the run loop (`new_run_impl`): the command channel (pending
queue, and whether every sender has been dropped), the pending transport
events of the swarm (inbound gossip payloads with their propagation source),
the publish outcome oracle, the actor state, and the accumulated observable
outputs. -/
structure LoopState where
  cmdQueue : List NetworkCommand
  cmdClosed : Bool
  swarmEvents : List (PeerId × List Nat)
  pubOk : Bool
  actor : ActorState
  emitted : List NetworkEvent
  published : List (Topic × List Nat)
deriving DecidableEq

/-- Which `tokio::select!` branch fires on an iteration. -/
inductive Choice where
  | command
  | swarm
deriving DecidableEq

/-- Result of one iteration of the loop body.  A Rust `loop` body exits only
by `break` or `return`; `halt` stands for such an exit. -/
inductive IterResult where
  | next (s : LoopState)
  | halt
deriving DecidableEq

/-- One iteration of `loop { tokio::select! { … } }` (`new_run_impl`).  The
command branch has pattern `Some(command) = command_rx.recv()`: it fires only
when the queue yields a command; when the channel is closed and empty,
`recv()` returns `None`, the pattern fails and the branch is disabled for that
select — no state changes and the loop waits again (modelled as `next s`).
The swarm branch fires on a pending transport event; a gossip event runs the
patched handler.  Neither arm of the source body contains `break` or `return`,
so no branch produces `halt`. -/
def loopIter (s : LoopState) (c : Choice) : IterResult :=
  match c with
  | .command =>
    match s.cmdQueue with
    | [] => .next s
    | cmd :: rest =>
      let r := handle_command to_bytesE s.pubOk s.actor cmd
      .next { s with cmdQueue := rest, published := s.published ++ r.publishes }
  | .swarm =>
    match s.swarmEvents with
    | [] => .next s
    | (p, d) :: rest =>
      let r := new_handling p d
      .next { s with swarmEvents := rest, emitted := s.emitted ++ r.events }

/-- Whether the loop is still running or has exited ("stopped"). -/
inductive LoopStatus where
  | running
  | stopped
deriving DecidableEq

/-- Run the loop along a schedule of select firings, reporting `stopped` as
soon as an iteration exits the loop and `running` otherwise. -/
def runLoop (s : LoopState) : List Choice → LoopStatus
  | [] => .running
  | c :: cs =>
    match loopIter s c with
    | .next s' => runLoop s' cs
    | .halt => .stopped

/-- A loop state in which every command sender has been dropped (channel
closed, queue drained) while one transport event is still pending. -/
def droppedState : LoopState :=
  { cmdQueue := [], cmdClosed := true,
    swarmEvents := [(1, to_bytes (.Ping 0))],
    pubOk := true, actor := { subscriberAttached := true },
    emitted := [], published := [] }

/-- An encoder that fails on every message, exercising the
`if let Ok(data) = message.to_bytes()` guards of `handle_command`. -/
def failEnc : Message → Except Unit (List Nat) := fun _ => .error ()

theorem loopIter_ne_halt (s : LoopState) (c : Choice) : loopIter s c ≠ IterResult.halt := by
  cases c with
  | command => cases h : s.cmdQueue <;> simp [loopIter, h]
  | swarm =>
    cases h : s.swarmEvents with
    | nil => simp [loopIter, h]
    | cons pd rest => cases pd; simp [loopIter, h]

theorem runLoop_running (s : LoopState) (cs : List Choice) :
    runLoop s cs = LoopStatus.running := by
  induction cs generalizing s with
  | nil => rfl
  | cons c cs ih =>
    unfold runLoop
    cases hc : loopIter s c with
    | next s' => exact ih s'
    | halt => exact absurd hc (loopIter_ne_halt s c)

/-- C1: an inbound gossip payload that decodes to `Message.Blocks bs` from
peer `p` makes the actor send exactly the `BlockReceived` events for the
blocks of `bs`, in payload order, each tagged with `p`, and no other event. -/
theorem C1_blocks_fanout (p : PeerId) (data : List Nat) (bs : List Block)
    (h : from_bytes data = Except.ok (Message.Blocks bs)) :
    (new_handling p data).events = bs.map (fun b => NetworkEvent.BlockReceived p b) ∧
    (new_handling p data).events.length = bs.length := by
  unfold new_handling
  rw [h]
  simp [dispatchMessage]

/-- C1 witness: a three-block payload from peer 7 yields exactly the three
`BlockReceived` events, in order, tagged with peer 7. -/
theorem C1_blocks_fanout_witness :
    (new_handling 7 (to_bytes (Message.Blocks [10, 20, 30]))).events
      = [NetworkEvent.BlockReceived 7 10, NetworkEvent.BlockReceived 7 20,
         NetworkEvent.BlockReceived 7 30] ∧
    (new_handling 7 (to_bytes (Message.Blocks [10, 20, 30]))).events.length = 3 :=
  ⟨(C1_blocks_fanout 7 (to_bytes (Message.Blocks [10, 20, 30])) [10, 20, 30] rfl).1,
   (C1_blocks_fanout 7 (to_bytes (Message.Blocks [10, 20, 30])) [10, 20, 30] rfl).2⟩

/-- C2 counterexample: with every command sender dropped (channel closed,
queue drained) and a transport event still pending, the run loop never reaches
the stopped state under any schedule of select firings — the source loop body
contains no `break` or `return`, so dropping the senders only disables the
command branch. -/
theorem C2_shutdown_counterexample :
    droppedState.cmdClosed = true ∧
    ∀ cs : List Choice, runLoop droppedState cs = LoopStatus.running :=
  ⟨rfl, fun cs => runLoop_running droppedState cs⟩

/-- C2 (amended): the run loop never terminates: from any state and under any
schedule of select firings it stays running — dropping every command sender
merely disables the command branch (its `Some(command)` pattern fails once
`recv()` yields `None`) while the loop keeps servicing transport events; no
panic and no exit path exists in the loop body. -/
theorem C2_loop_never_stops (s : LoopState) (cs : List Choice) :
    runLoop s cs = LoopStatus.running :=
  runLoop_running s cs

/-- C3: every constructible `Message` value round-trips through
encode→decode to an equal value, for all eight wire variants. -/
theorem C3_roundtrip (m : Message) : from_bytes (to_bytes m) = Except.ok m := by
  cases m <;> simp [to_bytes, from_bytes]

/-- C4: a gossip payload on which decode fails produces zero events and no
publish, logs exactly the deserialization warning, and leaves the processing
of every subsequent payload unchanged. -/
theorem C4_decode_failure_dropped (p : PeerId) (data : List Nat) (e : DecodeError)
    (h : from_bytes data = Except.error e) :
    (new_handling p data).events = [] ∧
    (new_handling p data).publishes = [] ∧
    (new_handling p data).logs = [Log.warnDecodeFailed] ∧
    ∀ rest : List (PeerId × List Nat), handleSeq ((p, data) :: rest) = handleSeq rest := by
  unfold new_handling
  rw [h]
  refine ⟨rfl, rfl, rfl, fun rest => ?_⟩
  simp [handleSeq, new_handling, h]

/-- C4 witness: the undecodable blob `[99]` from peer 3 yields no event, and a
valid `NewBlock` payload from peer 4 right after it is still processed. -/
theorem C4_decode_failure_dropped_witness :
    (new_handling 3 [99]).events = [] ∧
    handleSeq [(3, [99]), (4, to_bytes (Message.NewBlock 5))]
      = handleSeq [(4, to_bytes (Message.NewBlock 5))] ∧
    handleSeq [(3, [99]), (4, to_bytes (Message.NewBlock 5))]
      = [NetworkEvent.BlockReceived 4 5] :=
  ⟨(C4_decode_failure_dropped 3 [99] DecodeError.malformed rfl).1,
   (C4_decode_failure_dropped 3 [99] DecodeError.malformed rfl).2.2.2
     [(4, to_bytes (Message.NewBlock 5))],
   by decide⟩

/-- C5: a dequeued `RequestBlocks{peer_id, start_height, count}` makes the
actor attempt exactly one publish, of the encoded
`GetBlocks{start_height, count}`, on the "blocks" topic, whatever the publish
outcome; the result is the same whether or not an event subscriber is
attached. -/
theorem C5_request_blocks_publish (pubOk : Bool) (self : ActorState)
    (q : PeerId) (sh c : Nat) :
    (handle_command to_bytesE pubOk self (NetworkCommand.RequestBlocks q sh c)).publishes
      = [(Topic.blocks, to_bytes (Message.GetBlocks sh c))] ∧
    handle_command to_bytesE pubOk { subscriberAttached := false }
        (NetworkCommand.RequestBlocks q sh c)
      = handle_command to_bytesE pubOk { subscriberAttached := true }
        (NetworkCommand.RequestBlocks q sh c) := by
  cases pubOk <;> exact ⟨rfl, rfl⟩

/-- C6: a dequeued `SendStatus{peer_id, height, best_hash}` makes the actor
attempt exactly one publish, of the encoded `Status` carrying that height and
that hash as `best_block_hash`, on the "blocks" topic, whatever the publish
outcome. -/
theorem C6_send_status_publish (pubOk : Bool) (self : ActorState)
    (q : PeerId) (h bh : Nat) :
    (handle_command to_bytesE pubOk self (NetworkCommand.SendStatus q h bh)).publishes
      = [(Topic.blocks, to_bytes (Message.Status h bh))] := by
  cases pubOk <;> rfl

/-- C7: an inbound message that decodes to `GetStatus`, `Ping` or `Pong`
produces zero events and zero publishes (in particular no `Pong` reply); it is
acknowledged only by log lines (the receive line plus one variant line). -/
theorem C7_inert_messages (p : PeerId) (data : List Nat) (m : Message)
    (h1 : from_bytes data = Except.ok m)
    (h2 : m = Message.GetStatus ∨ (∃ n, m = Message.Ping n) ∨ ∃ n, m = Message.Pong n) :
    (new_handling p data).events = [] ∧
    (new_handling p data).publishes = [] ∧
    (new_handling p data).logs.length = 2 := by
  unfold new_handling
  rw [h1]
  rcases h2 with h2 | ⟨n, h2⟩ | ⟨n, h2⟩ <;> subst h2 <;> exact ⟨rfl, rfl, rfl⟩

/-- C7 witness: an inbound `Ping` with nonce 7 from peer 3 yields no event and
no publish, only its two log lines. -/
theorem C7_inert_messages_witness :
    (new_handling 3 [6, 7]).events = [] ∧
    (new_handling 3 [6, 7]).publishes = [] ∧
    (new_handling 3 [6, 7]).logs.length = 2 :=
  C7_inert_messages 3 [6, 7] (Message.Ping 7) rfl (Or.inr (Or.inl ⟨7, rfl⟩))

/-- C8: when the publish of a dequeued command fails, the failure is
non-fatal: exactly one publish attempt was made (never retried), the handler
produces exactly one log line and it is a warning, nothing is returned to the
caller, and the loop iteration that dequeued the command continues to the next
state rather than exiting. -/
theorem C8_publish_failure_nonfatal (self : ActorState) (cmd : NetworkCommand) :
    (handle_command to_bytesE false self cmd).publishes.length = 1 ∧
    (handle_command to_bytesE false self cmd).logs.length = 1 ∧
    (handle_command to_bytesE false self cmd).logs.all isWarnLog = true ∧
    ∀ (q : List NetworkCommand) (cl : Bool) (sw : List (PeerId × List Nat))
      (em : List NetworkEvent) (pb : List (Topic × List Nat)),
      ∃ s', loopIter ⟨cmd :: q, cl, sw, false, self, em, pb⟩ Choice.command
              = IterResult.next s' := by
  cases cmd <;> exact ⟨rfl, rfl, rfl, fun q cl sw em pb => ⟨_, rfl⟩⟩

/-- C9: when encoding the command's message fails, the handler performs no
publish, logs nothing, and returns normally with an empty result — the
command is silently dropped. -/
theorem C9_encode_failure_silent (enc : Message → Except Unit (List Nat))
    (pubOk : Bool) (self : ActorState) (cmd : NetworkCommand) (e : Unit)
    (h : enc (commandMessage cmd) = Except.error e) :
    handle_command enc pubOk self cmd = { publishes := [], logs := [] } := by
  cases cmd <;> simp only [commandMessage] at h <;> simp [handle_command, h]

/-- C9 witness: with an always-failing encoder, `BroadcastBlock 0` produces no
publish and no log. -/
theorem C9_encode_failure_silent_witness :
    handle_command failEnc true { subscriberAttached := true }
        (NetworkCommand.BroadcastBlock 0)
      = { publishes := [], logs := [] } :=
  C9_encode_failure_silent failEnc true { subscriberAttached := true }
    (NetworkCommand.BroadcastBlock 0) () rfl

/-- C10: the handling of `SendStatus` and `RequestBlocks` is independent of
the command's `peer_id` field: two commands differing only in `peer_id`
produce identical results (same bytes, same "blocks" topic, same logs), for
any encoder and publish outcome. -/
theorem C10_peer_id_independence (enc : Message → Except Unit (List Nat))
    (pubOk : Bool) (self : ActorState) (p1 p2 : PeerId) (h bh sh c : Nat) :
    handle_command enc pubOk self (NetworkCommand.SendStatus p1 h bh)
      = handle_command enc pubOk self (NetworkCommand.SendStatus p2 h bh) ∧
    handle_command enc pubOk self (NetworkCommand.RequestBlocks p1 sh c)
      = handle_command enc pubOk self (NetworkCommand.RequestBlocks p2 sh c) :=
  ⟨rfl, rfl⟩

end BoundlessP2P
